import Mathlib

/-!
Shallow embedding of `whisper_jni.cpp` (Day-16 Voice Assistant native bridge).

The file exposes three JNI operations over a process-wide
`static whisper_context* ctx`:

* `nativeInitModel`       (lines 27-48)  — load a model, destroying any prior
  context first;
* `nativeTranscribeAudio` (lines 51-116) — decode audio, validate, run
  inference, assemble the transcript;
* `nativeFreeModel`       (lines 119-126) — destroy the context if present.

plus the helper `read_audio_file` (lines 131-210), which decodes a `.wav`
path via dr_wav (with channel/rate validation) and falls back to raw 16-bit
PCM interpretation when the WAV container itself fails to parse.

External collaborators are modelled as oracles:

* the filesystem maps the audio path to `Option AudioFile` (`none` = the file
  cannot be opened at all); an openable file carries its raw bytes and the
  outcome of `drwav_init_file` (`Option WavInfo`, `none` = container parse
  failure);
* the whisper library (`whisper_full` / `whisper_full_n_segments` /
  `whisper_full_get_segment_text`) is a function from context, parameters
  and samples to `Except Unit (List String)` — a non-zero return of
  `whisper_full` on the left, the ordered segment texts on the right;
* `whisper_init_from_file` is a function from the model path to
  `Option ModelContext`.

Float samples are modelled as `ℚ`: every value produced by the raw-PCM
fallback is an `int16` divided by `32768.0`, which is exact in binary
floating point, so the rational model is faithful.  To state the resource
claims the process state also tracks the multiset of live native contexts
(`live`), which `whisper_init_from_file` extends and `whisper_free` shrinks.
-/

/-- A byte of the audio file. -/
abbrev Byte := Fin 256

/-- Opaque handle to a loaded whisper context (`whisper_context*`). -/
abbrev ModelContext := Nat

/-- Outcome of a successful `drwav_init_file`: the header fields the code
inspects and the float frames `drwav_read_pcm_frames_f32` would deliver. -/
structure WavInfo where
  channels : Nat
  sampleRate : Nat
  frames : List ℚ
deriving DecidableEq, Repr

/-- An openable file: its raw byte content (used by the raw-PCM fallback)
and the result of attempting to parse it as a WAV container. -/
structure AudioFile where
  bytes : List Byte
  wavParse : Option WavInfo
deriving DecidableEq, Repr

/-- The spec's decode-error taxonomy, tagging the distinct `return false`
sites of `read_audio_file` (spec §7). -/
inductive DecodeError where
  | UnsupportedFormat
  | UnsupportedChannelLayout
  | UnsupportedSampleRate
  | IOError
deriving DecidableEq, Repr

/-- Reinterpret two little-endian bytes as a signed 16-bit integer
(`int16_t`), as the raw-PCM fallback's `file.read` into `int16_t` does. -/
def toInt16 (lo hi : Byte) : Int :=
  let u : Nat := lo.val + 256 * hi.val
  if u < 32768 then (u : Int) else (u : Int) - 65536

/-- Lines 191-201: read the byte stream as 16-bit PCM (`file_size / 2`
samples, a trailing odd byte dropped) and convert each sample to float by
dividing by `32768.0f`. -/
def bytesToPCM : List Byte → List ℚ
  | [] => []
  | [_] => []
  | lo :: hi :: rest => ((toInt16 lo hi : ℚ) / 32768) :: bytesToPCM rest

/-- Line 132, `strrchr(filename, '.')`: the suffix of the path starting at
its last dot, or `none` when the path has no dot. -/
def extFromLastDot : List Char → Option (List Char)
  | [] => none
  | c :: cs =>
    match extFromLastDot cs with
    | some e => some e
    | none => if c = '.' then some (c :: cs) else none

/-- Line 135, `ext && strcmp(ext, ".wav") == 0`. -/
def hasWavExt (path : List Char) : Bool :=
  extFromLastDot path = some ['.', 'w', 'a', 'v']

/-- Lines 131-210, `read_audio_file`, with the spec's error tags on the
distinct failure returns.  `file` is the filesystem's view of `filename`
(`none` = the file cannot be opened at all). -/
def read_audio_file (filename : List Char) (file : Option AudioFile) :
    Except DecodeError (List ℚ) :=
  if hasWavExt filename then
    match file with
    | some f =>
      match f.wavParse with
      | some wav =>
        if wav.channels ≠ 1 then
          .error .UnsupportedChannelLayout
        else if wav.sampleRate ≠ 16000 then
          .error .UnsupportedSampleRate
        else
          .ok wav.frames
      | none =>
        -- lines 174-204: container parse failed; raw-PCM fallback
        .ok (bytesToPCM f.bytes)
    | none =>
      -- the file cannot be opened: drwav_init_file fails, and so does the
      -- ifstream at line 179
      .error .IOError
  else
    .error .UnsupportedFormat

/-- The inference-parameter fields the code sets (lines 79-85). -/
structure whisper_full_params where
  print_realtime : Bool
  print_progress : Bool
  print_timestamps : Bool
  translate : Bool
  language : String
  n_threads : Nat
deriving DecidableEq, Repr

/-- Lines 79-85: greedy defaults with the overrides applied, `n_threads`
computed from the machine's `hardware_concurrency`. -/
def configuredParams (hardware_concurrency : Nat) : whisper_full_params :=
  { print_realtime := true
    print_progress := true
    print_timestamps := true
    translate := false
    language := "en"
    n_threads := min 4 hardware_concurrency }

/-- The whisper inference oracle: `whisper_full` plus segment retrieval.
`.error ()` models a non-zero `whisper_full` return; `.ok segs` the ordered
segment texts. -/
abbrev Whisper := ModelContext → whisper_full_params → List ℚ → Except Unit (List String)

/-- The process-wide state: the `static whisper_context* ctx` (line 19) and
the multiset of native contexts currently allocated and not yet freed. -/
structure ProcState where
  ctx : Option ModelContext
  live : List ModelContext
deriving DecidableEq, Repr

/-- The live-context list is exactly the contents of `ctx`: at most one
context is allocated, and it is the one the session holds. -/
def goodState (st : ProcState) : Prop :=
  st.live = st.ctx.toList

instance (st : ProcState) : Decidable (goodState st) := by
  unfold goodState; infer_instance

/-- Lines 27-48, `nativeInitModel`: destroy any prior context, then attempt
`whisper_init_from_file` (the `alloc` oracle); `true` iff the new context is
non-null. -/
def nativeInitModel (alloc : String → Option ModelContext) (modelPath : String)
    (st : ProcState) : Bool × ProcState :=
  let st1 : ProcState :=
    match st.ctx with
    | some c => { ctx := none, live := st.live.erase c }
    | none => st
  match alloc modelPath with
  | none => (false, st1)
  | some c => (true, { ctx := some c, live := c :: st1.live })

/-- Lines 119-126, `nativeFreeModel`: destroy the context if present, no-op
otherwise. -/
def nativeFreeModel (st : ProcState) : ProcState :=
  match st.ctx with
  | some c => { ctx := none, live := st.live.erase c }
  | none => st

/-- Lines 51-116, `nativeTranscribeAudio`: guard on the context, decode,
check the 1000-sample minimum, run inference, assemble the transcript.
`file` is the filesystem's view of `audioPath`; the returned state is the
process state after the call. -/
def nativeTranscribeAudio (wf : Whisper) (hardware_concurrency : Nat)
    (file : Option AudioFile) (audioPath : List Char) (st : ProcState) :
    String × ProcState :=
  match st.ctx with
  | none => ("Error: Model not initialized", st)
  | some c =>
    match read_audio_file audioPath file with
    | .error _ => ("Error: Failed to read audio file", st)
    | .ok pcmf32 =>
      if pcmf32.length < 1000 then
        ("Error: Audio file too short", st)
      else
        match wf c (configuredParams hardware_concurrency) pcmf32 with
        | .error _ => ("Error: Failed to process audio", st)
        | .ok segments =>
          if segments.length = 0 then
            ("No speech detected", st)
          else
            (segments.foldl (fun result text => result ++ text ++ " ") "", st)

/-! ### Helper lemmas -/

theorem join_cons (s : String) (l : List String) :
    String.join (s :: l) = s ++ String.join l := by
  simp only [String.join_eq, List.map_cons, List.flatten_cons]
  rfl

theorem assemble_go (segs : List String) (acc : String) :
    segs.foldl (fun result text => result ++ text ++ " ") acc =
      acc ++ String.join (segs.map fun text => text ++ " ") := by
  induction segs generalizing acc with
  | nil => simp [String.join]
  | cons s rest ih =>
    simp only [List.foldl_cons, List.map_cons, ih, join_cons]
    simp [String.append_assoc]

theorem extFromLastDot_isSuffix (p e : List Char) (h : extFromLastDot p = some e) :
    e <:+ p := by
  induction p with
  | nil => simp [extFromLastDot] at h
  | cons c cs ih =>
    rw [extFromLastDot] at h
    rcases he : extFromLastDot cs with _ | e1
    · rw [he] at h
      by_cases hc : c = '.'
      · simp [hc] at h
        subst h hc
        exact List.suffix_refl _
      · simp [hc] at h
    · rw [he] at h
      simp at h
      subst h
      exact (ih he).trans (List.suffix_cons c cs)

theorem extFromLastDot_append_wav (t : List Char) :
    extFromLastDot (t ++ ['.', 'w', 'a', 'v']) = some ['.', 'w', 'a', 'v'] := by
  induction t with
  | nil => rfl
  | cons a t1 ih => rw [List.cons_append, extFromLastDot, ih]

theorem hasWavExt_iff (p : List Char) :
    hasWavExt p = true ↔ ['.', 'w', 'a', 'v'] <:+ p := by
  constructor
  · intro h
    simp only [hasWavExt, decide_eq_true_eq] at h
    exact extFromLastDot_isSuffix p _ h
  · rintro ⟨t, rfl⟩
    simp only [hasWavExt, decide_eq_true_eq]
    exact extFromLastDot_append_wav t

theorem bytesToPCM_length (b : List Byte) :
    (bytesToPCM b).length = b.length / 2 := by
  induction b using bytesToPCM.induct with
  | case1 => rfl
  | case2 => simp [bytesToPCM]
  | case3 lo hi rest ih =>
    simp only [bytesToPCM, List.length_cons, ih]
    omega

theorem bytesToPCM_eq_map (b : List Byte) :
    bytesToPCM b = (List.range (b.length / 2)).map fun i =>
      ((toInt16 (b.getD (2 * i) 0) (b.getD (2 * i + 1) 0) : ℚ) / 32768) := by
  induction b using bytesToPCM.induct with
  | case1 => rfl
  | case2 => simp [bytesToPCM]
  | case3 lo hi rest ih =>
    have hlen : (lo :: hi :: rest).length / 2 = rest.length / 2 + 1 := by
      simp only [List.length_cons]
      omega
    rw [bytesToPCM, hlen, List.range_succ_eq_map, List.map_cons, List.map_map, ih]
    congr 1

theorem toInt16_bounds (lo hi : Byte) :
    -32768 ≤ toInt16 lo hi ∧ toInt16 lo hi ≤ 32767 := by
  have h1 := lo.isLt
  have h2 := hi.isLt
  simp only [toInt16]
  split <;> omega

theorem bytesToPCM_mem_bounds (b : List Byte) :
    ∀ q ∈ bytesToPCM b, -1 ≤ q ∧ q ≤ 32767 / 32768 := by
  induction b using bytesToPCM.induct with
  | case1 => simp [bytesToPCM]
  | case2 => simp [bytesToPCM]
  | case3 lo hi rest ih =>
    intro q hq
    rw [bytesToPCM, List.mem_cons] at hq
    rcases hq with rfl | hq
    · obtain ⟨hlb, hub⟩ := toInt16_bounds lo hi
      have hlb' : (-32768 : ℚ) ≤ (toInt16 lo hi : ℚ) := by exact_mod_cast hlb
      have hub' : (toInt16 lo hi : ℚ) ≤ 32767 := by exact_mod_cast hub
      constructor
      · rw [le_div_iff₀ (by norm_num : (0 : ℚ) < 32768)]
        linarith
      · rw [div_le_div_iff_of_pos_right (by norm_num : (0 : ℚ) < 32768)]
        exact hub'
    · exact ih q hq

theorem transcribe_snd (wf : Whisper) (hw : Nat) (file : Option AudioFile)
    (path : List Char) (st : ProcState) :
    (nativeTranscribeAudio wf hw file path st).2 = st := by
  rw [nativeTranscribeAudio]
  rcases st.ctx with _ | c
  · rfl
  · rcases read_audio_file path file with _ | pcm
    · rfl
    · dsimp only
      split
      · rfl
      · rcases wf c (configuredParams hw) pcm with _ | segs
        · rfl
        · dsimp only
          split <;> rfl

/-! ### Concrete fixtures used by the witnesses -/

/-- The path `".wav"`. -/
def wavPath : List Char := ['.', 'w', 'a', 'v']

/-- A path not ending in `.wav`. -/
def pcmPath : List Char := ['a', '.', 'p', 'c', 'm']

/-- Three raw bytes (an odd-sized file): one full little-endian sample
`0x8000 = -32768` plus a trailing odd byte. -/
def oddBytes : List Byte := [⟨0, by decide⟩, ⟨128, by decide⟩, ⟨255, by decide⟩]

/-- A parsable mono 16 kHz WAV with 1000 silent frames. -/
def mockWavFile : AudioFile := ⟨[], some ⟨1, 16000, List.replicate 1000 0⟩⟩

/-- A parsable mono 16 kHz WAV with only 999 frames. -/
def shortWavFile : AudioFile := ⟨[], some ⟨1, 16000, List.replicate 999 0⟩⟩

/-- An inference oracle that always succeeds with two segments. -/
def mockWhisper : Whisper := fun _ _ _ => .ok ["Hello", "world"]

/-- An inference oracle that always fails (non-zero `whisper_full`). -/
def failWhisper : Whisper := fun _ _ _ => .error ()

/-- A ready session state holding context `0`. -/
def readySt : ProcState := ⟨some 0, [0]⟩

/-! ### The claims -/

/-- Claim C1: for every transcription request where the session is ready,
decoding and the minimum-length check succeed, and inference returns
success, the returned string is exactly "No speech detected" when inference
produced zero segments, and otherwise the concatenation, in segment order,
of each segment's text followed by a single space. -/
theorem claim_C1 (wf : Whisper) (hw : Nat) (file : Option AudioFile)
    (path : List Char) (st : ProcState) (c : ModelContext) (pcm : List ℚ)
    (segs : List String)
    (hctx : st.ctx = some c)
    (hread : read_audio_file path file = .ok pcm)
    (hlen : ¬ pcm.length < 1000)
    (hinf : wf c (configuredParams hw) pcm = .ok segs) :
    (nativeTranscribeAudio wf hw file path st).1 =
      if segs = [] then "No speech detected"
      else String.join (segs.map fun text => text ++ " ") := by
  simp only [nativeTranscribeAudio, hctx, hread, if_neg hlen, hinf]
  rcases segs with _ | ⟨s, rest⟩
  · rfl
  · rw [if_neg (by simp), if_neg (by simp), assemble_go, String.empty_append]

/-- Claim C1 witness: mocked segments ["Hello", "world"] yield exactly
"Hello world ". -/
theorem claim_C1_witness :
    (nativeTranscribeAudio mockWhisper 4 (some mockWavFile) wavPath readySt).1 =
      "Hello world " := by
  have h := claim_C1 mockWhisper 4 (some mockWavFile) wavPath readySt 0
    (List.replicate 1000 0) ["Hello", "world"] rfl rfl
    (by rw [List.length_replicate]; omega) rfl
  rw [h]
  decide

/-- Claim C2: a `.wav`-suffixed file whose container parses but whose
channel count is not 1 (resp. whose sample rate is not 16000) fails decode
with UnsupportedChannelLayout (resp. UnsupportedSampleRate), and the raw-PCM
fallback is never attempted: the result is the same for every byte content. -/
theorem claim_C2 (path : List Char) (w : WavInfo)
    (hext : hasWavExt path = true)
    (hbad : w.channels ≠ 1 ∨ w.sampleRate ≠ 16000) :
    ∀ b : List Byte, read_audio_file path (some ⟨b, some w⟩) =
      .error (if w.channels ≠ 1 then .UnsupportedChannelLayout
              else .UnsupportedSampleRate) := by
  intro b
  simp only [read_audio_file, hext, if_true]
  by_cases hc : w.channels = 1
  · have hr : w.sampleRate ≠ 16000 := by tauto
    simp [hc, hr]
  · simp [hc]

/-- Claim C2 witness: a parsable stereo 16 kHz WAV is rejected with the
channel-layout error, independent of its bytes. -/
theorem claim_C2_witness :
    read_audio_file wavPath (some ⟨oddBytes, some ⟨2, 16000, []⟩⟩) =
      .error .UnsupportedChannelLayout := by
  have h := claim_C2 wavPath ⟨2, 16000, []⟩ rfl (Or.inl (by decide)) oddBytes
  rw [h]
  rfl

/-- Claim C3: a `.wav`-suffixed file whose container fails to parse is
decoded by interpreting its entire byte content as raw little-endian signed
16-bit PCM, each sample divided by 32768; decode fails with IOError exactly
when the file cannot be opened at all. -/
theorem claim_C3 (path : List Char) (hext : hasWavExt path = true) :
    (∀ b : List Byte, read_audio_file path (some ⟨b, none⟩) =
      .ok ((List.range (b.length / 2)).map fun i =>
        ((toInt16 (b.getD (2 * i) 0) (b.getD (2 * i + 1) 0) : ℚ) / 32768))) ∧
    read_audio_file path none = .error .IOError := by
  constructor
  · intro b
    simp only [read_audio_file, hext, if_true, bytesToPCM_eq_map]
  · simp only [read_audio_file, hext, if_true]

/-- Claim C3 witness: a corrupt-header `.wav` file of three bytes
`[0x00, 0x80, 0xff]` decodes via the fallback to the single sample
`-32768 / 32768 = -1`, and an unopenable `.wav` path is an IOError. -/
theorem claim_C3_witness :
    read_audio_file wavPath (some ⟨oddBytes, none⟩) = .ok [-1] ∧
    read_audio_file wavPath none = .error .IOError := by
  refine ⟨((claim_C3 wavPath rfl).1 oddBytes).trans ?_, (claim_C3 wavPath rfl).2⟩
  norm_num [oddBytes, List.range_succ, toInt16]

/-- Claim C4: with a ready session and a successfully decoded buffer, fewer
than 1000 samples is rejected as "Error: Audio file too short" without
invoking inference (the result is the same for every inference oracle),
while exactly 1000 samples proceeds to inference, the result determined by
the inference outcome. -/
theorem claim_C4 (hw : Nat) (file : Option AudioFile) (path : List Char)
    (st : ProcState) (c : ModelContext) (pcm : List ℚ)
    (hctx : st.ctx = some c)
    (hread : read_audio_file path file = .ok pcm) :
    (pcm.length < 1000 →
      ∀ wf : Whisper, (nativeTranscribeAudio wf hw file path st).1 =
        "Error: Audio file too short") ∧
    (pcm.length = 1000 →
      ∀ wf : Whisper, (nativeTranscribeAudio wf hw file path st).1 =
        match wf c (configuredParams hw) pcm with
        | .error _ => "Error: Failed to process audio"
        | .ok segments =>
          if segments.length = 0 then "No speech detected"
          else segments.foldl (fun result text => result ++ text ++ " ") "") := by
  constructor
  · intro hlt wf
    simp only [nativeTranscribeAudio, hctx, hread, if_pos hlt]
  · intro heq wf
    have hge : ¬ pcm.length < 1000 := by omega
    simp only [nativeTranscribeAudio, hctx, hread, if_neg hge]
    rcases wf c (configuredParams hw) pcm with _ | segs
    · rfl
    · dsimp only
      split <;> rfl

/-- Claim C4 witness: a 999-sample decode is rejected as too short; a
1000-sample decode reaches the (mocked) inference and yields its
transcript. -/
theorem claim_C4_witness :
    (nativeTranscribeAudio mockWhisper 4 (some shortWavFile) wavPath readySt).1 =
      "Error: Audio file too short" ∧
    (nativeTranscribeAudio mockWhisper 4 (some mockWavFile) wavPath readySt).1 =
      "Hello world " := by
  constructor
  · exact (claim_C4 4 (some shortWavFile) wavPath readySt 0 (List.replicate 999 0)
      rfl rfl).1 (by rw [List.length_replicate]; omega) mockWhisper
  · rw [(claim_C4 4 (some mockWavFile) wavPath readySt 0 (List.replicate 1000 0)
      rfl rfl).2 (by rw [List.length_replicate]) mockWhisper]
    decide

/-- Claim C5: whenever the session is not ready (`ctx` is null — before any
successful load or after freeModel), transcribe returns exactly
"Error: Model not initialized" and no decoding is attempted: the result is
the same for every audio path and file content. -/
theorem claim_C5 (wf : Whisper) (hw : Nat) (file : Option AudioFile)
    (path : List Char) (live : List ModelContext) :
    nativeTranscribeAudio wf hw file path ⟨none, live⟩ =
      ("Error: Model not initialized", ⟨none, live⟩) := rfl

/-- Claim C6: a path not ending in `.wav` is rejected with
UnsupportedFormat for every file content, even bytes that are valid raw
PCM. -/
theorem claim_C6 (path : List Char) (h : ¬ ['.', 'w', 'a', 'v'] <:+ path)
    (file : Option AudioFile) :
    read_audio_file path file = .error .UnsupportedFormat := by
  have hext : hasWavExt path = false := by
    rw [← Bool.not_eq_true, hasWavExt_iff]
    exact h
  simp only [read_audio_file, hext, Bool.false_eq_true, if_false]

/-- Claim C6 witness: the path "a.pcm" whose bytes are a valid raw-PCM
sample is still rejected as unsupported format. -/
theorem claim_C6_witness :
    read_audio_file pcmPath (some ⟨oddBytes, none⟩) =
      .error .UnsupportedFormat :=
  claim_C6 pcmPath (by decide) (some ⟨oddBytes, none⟩)

/-- Claim C7: every failure outcome of transcribe returns only its
corresponding error string — ModelNotReady "Error: Model not initialized",
AudioReadFailed "Error: Failed to read audio file", AudioTooShort
"Error: Audio file too short", and a non-zero inference return
InferenceFailed "Error: Failed to process audio" with no partial
transcript — and every transcribe call, any outcome included, leaves the
process state (the loaded context, hence `is_ready`) unchanged. -/
theorem claim_C7 (wf : Whisper) (hw : Nat) (file : Option AudioFile)
    (path : List Char) (st : ProcState) :
    (st.ctx = none →
      (nativeTranscribeAudio wf hw file path st).1 =
        "Error: Model not initialized") ∧
    (∀ (c : ModelContext) (e : DecodeError), st.ctx = some c →
      read_audio_file path file = .error e →
      (nativeTranscribeAudio wf hw file path st).1 =
        "Error: Failed to read audio file") ∧
    (∀ (c : ModelContext) (pcm : List ℚ), st.ctx = some c →
      read_audio_file path file = .ok pcm → pcm.length < 1000 →
      (nativeTranscribeAudio wf hw file path st).1 =
        "Error: Audio file too short") ∧
    (∀ (c : ModelContext) (pcm : List ℚ), st.ctx = some c →
      read_audio_file path file = .ok pcm → ¬ pcm.length < 1000 →
      wf c (configuredParams hw) pcm = .error () →
      (nativeTranscribeAudio wf hw file path st).1 =
        "Error: Failed to process audio") ∧
    (nativeTranscribeAudio wf hw file path st).2 = st := by
  refine ⟨?_, ?_, ?_, ?_, transcribe_snd wf hw file path st⟩
  · intro hctx
    simp only [nativeTranscribeAudio, hctx]
  · intro c e hctx hread
    simp only [nativeTranscribeAudio, hctx, hread]
  · intro c pcm hctx hread hlt
    simp only [nativeTranscribeAudio, hctx, hread, if_pos hlt]
  · intro c pcm hctx hread hlen hinf
    simp only [nativeTranscribeAudio, hctx, hread, if_neg hlen, hinf]

/-- Claim C7 witness: each of the four failure outcomes — null context,
unopenable file, 999-sample decode, failing inference oracle — yields
exactly its error string at a concrete input, and the state after the
inference-failure call is the state before it. -/
theorem claim_C7_witness :
    (nativeTranscribeAudio failWhisper 4 (some mockWavFile) wavPath
      ⟨none, []⟩).1 = "Error: Model not initialized" ∧
    (nativeTranscribeAudio failWhisper 4 none wavPath readySt).1 =
      "Error: Failed to read audio file" ∧
    (nativeTranscribeAudio failWhisper 4 (some shortWavFile) wavPath readySt).1 =
      "Error: Audio file too short" ∧
    (nativeTranscribeAudio failWhisper 4 (some mockWavFile) wavPath readySt).1 =
      "Error: Failed to process audio" ∧
    (nativeTranscribeAudio failWhisper 4 (some mockWavFile) wavPath readySt).2 =
      readySt := by
  refine ⟨(claim_C7 failWhisper 4 (some mockWavFile) wavPath ⟨none, []⟩).1 rfl,
    (claim_C7 failWhisper 4 none wavPath readySt).2.1 0 .IOError rfl rfl,
    (claim_C7 failWhisper 4 (some shortWavFile) wavPath readySt).2.2.1 0
      (List.replicate 999 0) rfl rfl (by rw [List.length_replicate]; omega),
    (claim_C7 failWhisper 4 (some mockWavFile) wavPath readySt).2.2.2.1 0
      (List.replicate 1000 0) rfl rfl (by rw [List.length_replicate]; omega) rfl,
    (claim_C7 failWhisper 4 (some mockWavFile) wavPath readySt).2.2.2.2⟩

/-- Claim C8: starting from a consistent state, a load destroys any prior
context before allocating (the consistency of `live` with `ctx` is
preserved and at most one context is live afterwards), a failed allocation
leaves the session unloaded with a `false` return, and two successive
successful loads leave the same live-context count as one. -/
theorem claim_C8 (alloc : String → Option ModelContext) (p : String)
    (st : ProcState) (h : goodState st) :
    goodState (nativeInitModel alloc p st).2 ∧
    (nativeInitModel alloc p st).2.live.length ≤ 1 ∧
    (alloc p = none →
      (nativeInitModel alloc p st).2.ctx = none ∧
      (nativeInitModel alloc p st).1 = false) ∧
    ∀ pA pB : String, alloc pA ≠ none → alloc pB ≠ none →
      (nativeInitModel alloc pB (nativeInitModel alloc pA st).2).2.live.length =
        (nativeInitModel alloc pA st).2.live.length := by
  obtain ⟨ctxv, livev⟩ := st
  rw [goodState] at h
  simp only at h
  subst h
  refine ⟨?_, ?_, ?_, ?_⟩
  · rcases ctxv with _ | c <;> rcases hal : alloc p with _ | c2 <;>
      simp [nativeInitModel, hal, goodState]
  · rcases ctxv with _ | c <;> rcases hal : alloc p with _ | c2 <;>
      simp [nativeInitModel, hal]
  · intro hal
    rcases ctxv with _ | c <;> simp [nativeInitModel, hal]
  · intro pA pB hA hB
    rcases halA : alloc pA with _ | cA
    · exact absurd halA hA
    rcases halB : alloc pB with _ | cB
    · exact absurd halB hB
    rcases ctxv with _ | c <;>
      simp [nativeInitModel, halA, halB, List.erase_cons_head]

/-- Claim C8 witness: from the fresh state, a successful load keeps the
live list consistent with the context, at most one context is live, and a
second successful load leaves the live count at one. -/
theorem claim_C8_witness :
    goodState (nativeInitModel (fun _ => some 7) "m" ⟨none, []⟩).2 ∧
    (nativeInitModel (fun _ => some 7) "m" ⟨none, []⟩).2.live.length ≤ 1 ∧
    (nativeInitModel (fun _ => some 7) "b"
        (nativeInitModel (fun _ => some 7) "a" ⟨none, []⟩).2).2.live.length =
      (nativeInitModel (fun _ => some 7) "a" ⟨none, []⟩).2.live.length := by
  have h := claim_C8 (fun _ => some 7) "m" ⟨none, []⟩ rfl
  exact ⟨h.1, h.2.1, h.2.2.2 "a" "b" (by simp) (by simp)⟩

/-- Claim C9: freeModel is idempotent — after a free the session is
unloaded, a free on an unloaded session is a no-op, a free on a loaded
session destroys exactly that context, and freeing twice equals freeing
once. -/
theorem claim_C9 (st : ProcState) :
    nativeFreeModel (nativeFreeModel st) = nativeFreeModel st ∧
    (nativeFreeModel st).ctx = none ∧
    (st.ctx = none → nativeFreeModel st = st) ∧
    ∀ c : ModelContext, st.ctx = some c →
      nativeFreeModel st = ⟨none, st.live.erase c⟩ := by
  obtain ⟨ctxv, livev⟩ := st
  rcases ctxv with _ | c <;>
    simp [nativeFreeModel]

/-- Claim C9 witness: on a loaded single-context state, freeing twice
equals freeing once, and one free destroys the context. -/
theorem claim_C9_witness :
    nativeFreeModel (nativeFreeModel ⟨some 5, [5]⟩) = nativeFreeModel ⟨some 5, [5]⟩ ∧
    nativeFreeModel ⟨some 5, [5]⟩ = ⟨none, []⟩ := by
  have h := claim_C9 ⟨some 5, [5]⟩
  refine ⟨h.1, (h.2.2.2 5 rfl).trans ?_⟩
  rfl

/-- Claim C10: once the raw-PCM fallback path has an openable file, it
always succeeds, yielding exactly `file size / 2` samples (an empty or
odd-sized file included), and every produced sample lies in
`[-1, 32767/32768]`. -/
theorem claim_C10 (path : List Char) (b : List Byte)
    (hext : hasWavExt path = true) :
    read_audio_file path (some ⟨b, none⟩) = .ok (bytesToPCM b) ∧
    (bytesToPCM b).length = b.length / 2 ∧
    ∀ q ∈ bytesToPCM b, -1 ≤ q ∧ q ≤ 32767 / 32768 := by
  refine ⟨?_, bytesToPCM_length b, bytesToPCM_mem_bounds b⟩
  simp only [read_audio_file, hext, if_true]

/-- Claim C10 witness: a three-byte (odd-sized) corrupt `.wav` file decodes
to one sample, the most negative value `-1`, within bounds. -/
theorem claim_C10_witness :
    read_audio_file wavPath (some ⟨oddBytes, none⟩) = .ok (bytesToPCM oddBytes) ∧
    (bytesToPCM oddBytes).length = oddBytes.length / 2 ∧
    ∀ q ∈ bytesToPCM oddBytes, -1 ≤ q ∧ q ≤ 32767 / 32768 :=
  claim_C10 wavPath oddBytes rfl
